import Mathlib

/-!
Shallow embedding of `src/kernel_module/test_module.c`: a Linux kernel
module that periodically appends a status line to a file.  The timer
callback, the workqueue handler, module init/exit and the file writer are
modelled as pure functions over explicit state; external effects
(allocation success, `filp_open`, `kernel_write`) are supplied by oracle
records, and each function additionally returns the ordered trace of the
observable events it performs.
-/

/-- PATH_MAX from linux/limits.h. -/
def PATH_MAX : Nat := 4096

/-- MAX_PATH_LEN from the source: `PATH_MAX - 1`. -/
def MAX_PATH_LEN : Nat := PATH_MAX - 1

/-- MIN_PERIOD from the source. -/
def MIN_PERIOD : Nat := 1

/-- MAX_PERIOD from the source. -/
def MAX_PERIOD : Nat := 3600

/-- Modulus of the 32-bit unsigned counter (`atomic_t` read as `unsigned int`). -/
def UINT_MOD : Nat := 2 ^ 32

/-- Model of `strnlen`: the string length capped at `maxlen`. -/
def strnlen (s : String) (maxlen : Nat) : Nat := min s.length maxlen

/-- Model of `is_valid_path` (test_module.c lines 48-62); `none` models a
NULL pointer. -/
def is_valid_path : Option String → Bool
  | none => false
  | some p =>
    let len := strnlen p (MAX_PATH_LEN + 1)
    if len = 0 ∨ len > MAX_PATH_LEN then false else true

/-- Oracle for the external effects `write_to_file` depends on:
whether `kstrdup` succeeds, what `filp_open` returns (`some e` is an
`IS_ERR` pointer carrying errno `e`, `none` a valid file), and what
`kernel_write` returns (bytes written, or a negative errno). -/
structure WriteOracle where
  kstrdupOk : Bool
  openResult : Option Int
  writeResult : Int

/-- Observable file-system events of `write_to_file`, in program order. -/
inductive FsEvent where
  | openAttempt (path : String)
  | writeCall (len : Nat)
  | closeFile
  | freePathBuf
deriving DecidableEq

/-- Model of `write_to_file` (test_module.c lines 64-122).  Returns the C
return value (0 or a negative errno) together with the trace of file
events.  `none` arguments model NULL pointers. -/
def write_to_file (message : Option String) (filepath : Option String)
    (o : WriteOracle) : Int × List FsEvent :=
  match message with
  | none => (-22, [])
  | some msg =>
    match filepath with
    | none => (-22, [])
    | some p =>
      if is_valid_path (some p) = false then (-22, [])
      else if msg.length = 0 then (0, [])
      else if o.kstrdupOk = false then (-12, [])
      else
        match o.openResult with
        | some e => (e, [FsEvent.openAttempt p, FsEvent.freePathBuf])
        | none =>
          let written := o.writeResult
          let ret : Int :=
            if written < 0 then written
            else if written ≠ (msg.length : Int) then -5
            else 0
          (ret, [FsEvent.openAttempt p, FsEvent.writeCall msg.length,
                 FsEvent.closeFile, FsEvent.freePathBuf])

/-- Model of `struct write_work`: the two owned buffers (`none` models a
NULL pointer inside a malformed item). -/
structure write_work where
  message : Option String
  filepath : Option String

/-- Observable events of the workqueue handler, in program order. -/
inductive WorkEvent where
  | callWriteToFile (ret : Int)
  | freeMessage
  | freeFilepath
  | freeItem
deriving DecidableEq

/-- Model of `write_work_handler` (test_module.c lines 124-143): validate
the two pointers, call `write_to_file` when both are present, and free the
message, the filepath and the item on every path. -/
def write_work_handler (w : write_work) (o : WriteOracle) : List WorkEvent :=
  match w.message, w.filepath with
  | some m, some p =>
    [WorkEvent.callWriteToFile (write_to_file (some m) (some p) o).1,
     WorkEvent.freeMessage, WorkEvent.freeFilepath, WorkEvent.freeItem]
  | _, _ => [WorkEvent.freeMessage, WorkEvent.freeFilepath, WorkEvent.freeItem]

/-- Characterisation of `is_valid_path` on a non-NULL path. -/
lemma is_valid_path_some (s : String) :
    is_valid_path (some s) = true ↔ (1 ≤ s.length ∧ s.length ≤ PATH_MAX - 1) := by
  simp only [is_valid_path, strnlen, MAX_PATH_LEN, PATH_MAX]
  split
  · rename_i h
    constructor
    · intro hf; cases hf
    · intro hlen; omega
  · rename_i h
    constructor
    · intro _; omega
    · intro _; rfl

/-- is_valid_path rejects exactly NULL, empty and over-length paths. -/
lemma is_valid_path_eq_false_iff (p : Option String) :
    is_valid_path p = false ↔
      (p = none ∨ ∃ s, p = some s ∧ (s.length = 0 ∨ PATH_MAX - 1 < s.length)) := by
  cases p with
  | none => simp [is_valid_path]
  | some s =>
    have h := is_valid_path_some s
    constructor
    · intro hf
      right
      refine ⟨s, rfl, ?_⟩
      by_contra hc
      push_neg at hc
      have : is_valid_path (some s) = true := h.mpr ⟨by omega, by omega⟩
      rw [hf] at this
      cases this
    · rintro (hn | ⟨t, ht, hlen⟩)
      · cases hn
      · cases ht
        cases hb : is_valid_path (some s) with
        | false => rfl
        | true =>
          have := h.mp hb
          omega

/-- Model of one atomic counter update in `timer_callback` (test_module.c
lines 167-172): `atomic_inc_return` on a 32-bit counter, with the result 0
corrected to 1. -/
def counterStep (c : Nat) : Nat :=
  if (c + 1) % UINT_MOD = 0 then 1 else (c + 1) % UINT_MOD

/-- Counter value emitted at the k-th timer fire (k ≥ 1), starting from the
initial value 0 set by `test_module_init`. -/
def counterAfter : Nat → Nat
  | 0 => 0
  | k + 1 => counterStep (counterAfter k)

/-- Model of `struct test_module_state` plus the observable status of its
timer and workqueue handles. -/
structure test_module_state where
  write_counter : Nat
  module_active : Bool
  wqPresent : Bool
  timerPending : Bool

/-- A fully active state, as established by a successful init. -/
def activeState (c : Nat) : test_module_state :=
  { write_counter := c, module_active := true, wqPresent := true, timerPending := true }

/-- Oracle for the fallible operations inside `timer_callback`: the two
`snprintf` calls and the three `GFP_ATOMIC` allocations. -/
structure TCOracle where
  snprintf1Ok : Bool
  allocWOk : Bool
  allocMsgOk : Bool
  strdupOk : Bool
  snprintf2Ok : Bool

/-- Observable events of `timer_callback`, in program order. -/
inductive TCEvent where
  | incCounter
  | allocW
  | allocMsg
  | allocPath
  | freeW
  | freeMsg
  | freePath
  | submitWork
  | rearm
deriving DecidableEq

/-- Model of `timer_callback` (test_module.c lines 145-239).
`stateMatches` models the identity check `state == module_state` with a
non-NULL `module_state`; `fn` is the `filename` module parameter
(`none` = NULL); `period` is `timer_period`.  Returns the updated state and
the event trace. -/
def timer_callback (stateMatches : Bool) (st : test_module_state)
    (fn : Option String) (period : Nat) (o : TCOracle) :
    test_module_state × List TCEvent :=
  if stateMatches = false then (st, [])
  else if st.module_active = false then (st, [])
  else
    let st1 := { st with write_counter := counterStep st.write_counter }
    let rearmEvts : List TCEvent :=
      if st1.module_active = true ∧ 0 < period then [TCEvent.rearm] else []
    if o.snprintf1Ok = false then
      (st1, [TCEvent.incCounter] ++ rearmEvts)
    else if o.allocWOk = false then
      (st1, [TCEvent.incCounter] ++ rearmEvts)
    else if o.allocMsgOk = false then
      (st1, [TCEvent.incCounter, TCEvent.allocW, TCEvent.freeW] ++ rearmEvts)
    else if fn = none then
      (st1, [TCEvent.incCounter, TCEvent.allocW, TCEvent.allocMsg,
             TCEvent.freeMsg, TCEvent.freeW] ++ rearmEvts)
    else if o.strdupOk = false then
      (st1, [TCEvent.incCounter, TCEvent.allocW, TCEvent.allocMsg,
             TCEvent.freeMsg, TCEvent.freeW] ++ rearmEvts)
    else if o.snprintf2Ok = false then
      (st1, [TCEvent.incCounter, TCEvent.allocW, TCEvent.allocMsg, TCEvent.allocPath,
             TCEvent.freeMsg, TCEvent.freePath, TCEvent.freeW] ++ rearmEvts)
    else if st1.wqPresent = true ∧ st1.module_active = true then
      (st1, [TCEvent.incCounter, TCEvent.allocW, TCEvent.allocMsg, TCEvent.allocPath,
             TCEvent.submitWork] ++ rearmEvts)
    else
      (st1, [TCEvent.incCounter, TCEvent.allocW, TCEvent.allocMsg, TCEvent.allocPath,
             TCEvent.freeMsg, TCEvent.freePath, TCEvent.freeW] ++ rearmEvts)

/-- Load-time environment of `test_module_init`: the two module parameters
and whether the state allocation and the workqueue allocation succeed. -/
structure InitEnv where
  filename : Option String
  timer_period : Nat
  stateAllocOk : Bool
  wqAllocOk : Bool

/-- Observable events of `test_module_init`, in program order. -/
inductive InitEvent where
  | allocState
  | freeState
  | allocWq
  | setupTimer
  | armTimer
deriving DecidableEq

/-- Model of `test_module_init` (test_module.c lines 241-288).  Returns the
C return value, the event trace, and the resulting module state (`none` if
load failed). -/
def test_module_init (e : InitEnv) :
    Int × List InitEvent × Option test_module_state :=
  if is_valid_path e.filename = false then (-22, [], none)
  else if e.timer_period < MIN_PERIOD ∨ MAX_PERIOD < e.timer_period then (-22, [], none)
  else if e.stateAllocOk = false then (-12, [], none)
  else if e.wqAllocOk = false then
    (-12, [InitEvent.allocState, InitEvent.freeState], none)
  else
    (0, [InitEvent.allocState, InitEvent.allocWq, InitEvent.setupTimer,
         InitEvent.armTimer],
     some (activeState 0))

/-- Observable events of `test_module_exit`, in program order. -/
inductive ExitEvent where
  | readCounter
  | setInactive
  | cancelTimerSync
  | flushQueue
  | destroyQueue
  | finalWrite
  | freeState
  | clearRef
deriving DecidableEq

/-- Model of `test_module_exit` (test_module.c lines 290-324).  `ms` is the
global `module_state` (`none` = NULL); `filenameValid` is the value of
`filename && is_valid_path(filename)` at unload time. -/
def test_module_exit (ms : Option test_module_state) (filenameValid : Bool) :
    List ExitEvent :=
  match ms with
  | none => []
  | some st =>
    [ExitEvent.readCounter, ExitEvent.setInactive]
    ++ (if st.timerPending = true then [ExitEvent.cancelTimerSync] else [])
    ++ (if st.wqPresent = true then [ExitEvent.flushQueue, ExitEvent.destroyQueue] else [])
    ++ (if filenameValid = true then [ExitEvent.finalWrite] else [])
    ++ [ExitEvent.freeState, ExitEvent.clearRef]

/-- Modelled from the spec: the error kinds the FileWriter contract (§4.4)
lists besides the open-failure classification — InvalidArgument (-22) and
ShortWrite (-5).  Used only to compare the code's behaviour against the
contract. -/
def specFileWriterListedErrors : List Int := [-22, -5]

/-- An all-success oracle for `write_to_file`. -/
def writeOracleOk : WriteOracle :=
  { kstrdupOk := true, openResult := none, writeResult := 0 }

/-- An all-success oracle for `timer_callback`. -/
def tcOracleAllOk : TCOracle :=
  { snprintf1Ok := true, allocWOk := true, allocMsgOk := true,
    strdupOk := true, snprintf2Ok := true }

/-- An oracle whose work-item allocation fails. -/
def tcOracleNoW : TCOracle :=
  { snprintf1Ok := true, allocWOk := false, allocMsgOk := true,
    strdupOk := true, snprintf2Ok := true }

lemma counterStep_of_lt (c : Nat) (h : c + 1 < UINT_MOD) : counterStep c = c + 1 := by
  unfold counterStep
  rw [Nat.mod_eq_of_lt h]
  have : c + 1 ≠ 0 := Nat.succ_ne_zero c
  simp [this]

lemma counterStep_wrap : counterStep (UINT_MOD - 1) = 1 := by
  unfold counterStep
  have h1 : UINT_MOD - 1 + 1 = UINT_MOD := by
    have : 0 < UINT_MOD := by unfold UINT_MOD; positivity
    omega
  rw [h1, Nat.mod_self]
  simp

/-- Closed form of the emitted counter sequence: the k-th emitted value is
`k-1 mod (2^32 - 1) + 1`. -/
lemma counterAfter_closed : ∀ k, counterAfter (k + 1) = k % (UINT_MOD - 1) + 1 := by
  have hM : 1 < UINT_MOD - 1 := by unfold UINT_MOD; norm_num
  intro k
  induction k with
  | zero =>
    show counterStep (counterAfter 0) = 0 % (UINT_MOD - 1) + 1
    rw [Nat.zero_mod]
    show counterStep 0 = 1
    rw [counterStep_of_lt 0 (by omega)]
  | succ k ih =>
    show counterStep (counterAfter (k + 1)) = (k + 1) % (UINT_MOD - 1) + 1
    rw [ih]
    have hr : k % (UINT_MOD - 1) < UINT_MOD - 1 := Nat.mod_lt _ (by omega)
    have hsucc : (k + 1) % (UINT_MOD - 1) = (k % (UINT_MOD - 1) + 1) % (UINT_MOD - 1) := by
      conv_lhs => rw [Nat.add_mod]
      rw [Nat.mod_eq_of_lt hM]
    rcases Nat.lt_or_ge (k % (UINT_MOD - 1) + 1) (UINT_MOD - 1) with hlt | hge
    · rw [counterStep_of_lt _ (by omega), hsucc, Nat.mod_eq_of_lt hlt]
    · have heq : k % (UINT_MOD - 1) + 1 = UINT_MOD - 1 := by omega
      rw [heq, counterStep_wrap, hsucc, heq, Nat.mod_self]

lemma timer_callback_counter (st : test_module_state) (fn : Option String)
    (period : Nat) (o : TCOracle) (hact : st.module_active = true) :
    (timer_callback true st fn period o).1.write_counter = counterStep st.write_counter := by
  unfold timer_callback
  simp only [hact]
  split
  · simp at *
  · split
    · simp at *
    · repeat' split
      all_goals rfl

/-- Claim C1, counterexample: the emitted counter sequence is not strictly
increasing over every sequence of fires — at fire 2^32 - 1 the module emits
2^32 - 1, and at the next fire the wrapped counter is corrected to 1, which
is smaller. -/
theorem claim_C1_counterexample :
    counterAfter 4294967295 = 4294967295 ∧
    counterAfter 4294967296 = 1 ∧
    ¬ counterAfter 4294967295 < counterAfter 4294967296 := by
  have h1 := counterAfter_closed 4294967294
  have h2 := counterAfter_closed 4294967295
  have hM : UINT_MOD - 1 = 4294967295 := by unfold UINT_MOD; norm_num
  rw [hM] at h1 h2
  rw [Nat.mod_eq_of_lt (by norm_num)] at h1
  rw [Nat.mod_self] at h2
  refine ⟨by rw [h1], by rw [h2], ?_⟩
  rw [h1, h2]
  norm_num

/-- Claim C1, amended: each fire in the active state atomically advances
the counter by `counterStep`, which corrects a wrap to 0 into 1, so the
emitted counter is never 0; consecutive emitted values strictly increase
except across a wraparound, where the value 2^32 - 1 is followed by 1. -/
theorem claim_C1 (k : Nat) (st : test_module_state) (fn : Option String)
    (period : Nat) (o : TCOracle) (hact : st.module_active = true) :
    counterAfter (k + 1) ≠ 0
    ∧ (counterAfter (k + 1) < UINT_MOD - 1 → counterAfter (k + 2) = counterAfter (k + 1) + 1)
    ∧ (counterAfter (k + 1) = UINT_MOD - 1 → counterAfter (k + 2) = 1)
    ∧ (timer_callback true st fn period o).1.write_counter = counterStep st.write_counter := by
  have hM : 1 < UINT_MOD - 1 := by unfold UINT_MOD; norm_num
  have h1 := counterAfter_closed k
  have h2 := counterAfter_closed (k + 1)
  have hr : k % (UINT_MOD - 1) < UINT_MOD - 1 := Nat.mod_lt _ (by omega)
  have hsucc : (k + 1) % (UINT_MOD - 1) = (k % (UINT_MOD - 1) + 1) % (UINT_MOD - 1) := by
    conv_lhs => rw [Nat.add_mod]
    rw [Nat.mod_eq_of_lt hM]
  refine ⟨by omega, ?_, ?_, timer_callback_counter st fn period o hact⟩
  · intro hlt
    rw [h1] at hlt ⊢
    rw [h2, hsucc, Nat.mod_eq_of_lt (by omega)]
  · intro heq
    rw [h1] at heq
    rw [h2, hsucc]
    have : k % (UINT_MOD - 1) + 1 = UINT_MOD - 1 := by omega
    rw [this, Nat.mod_self]

/-- Witness for claim C1 at fire 1 with a fresh active state. -/
theorem claim_C1_witness :
    (activeState 0).module_active = true ∧
    (counterAfter 1 ≠ 0
     ∧ (counterAfter 1 < UINT_MOD - 1 → counterAfter 2 = counterAfter 1 + 1)
     ∧ (counterAfter 1 = UINT_MOD - 1 → counterAfter 2 = 1)
     ∧ (timer_callback true (activeState 0) (some "f") 5 tcOracleAllOk).1.write_counter
         = counterStep 0) :=
  ⟨rfl, claim_C1 0 (activeState 0) (some "f") 5 tcOracleAllOk rfl⟩

/-- Claim C2: with an existing module state (timer pending, workqueue
present), exit performs exactly: read counter, set inactive, synchronous
timer cancel, queue flush, queue destroy, a final write if the filename is
still valid, then free the state and clear the global reference — in this
order. -/
theorem claim_C2 (st : test_module_state) (filenameValid : Bool)
    (hp : st.timerPending = true) (hw : st.wqPresent = true) :
    test_module_exit (some st) filenameValid =
      [ExitEvent.readCounter, ExitEvent.setInactive, ExitEvent.cancelTimerSync,
       ExitEvent.flushQueue, ExitEvent.destroyQueue]
      ++ (if filenameValid = true then [ExitEvent.finalWrite] else [])
      ++ [ExitEvent.freeState, ExitEvent.clearRef] := by
  simp only [test_module_exit, hp, hw]
  simp

/-- Witness for claim C2 on a concrete active state with a valid filename. -/
theorem claim_C2_witness :
    (activeState 7).timerPending = true ∧ (activeState 7).wqPresent = true ∧
    test_module_exit (some (activeState 7)) true =
      [ExitEvent.readCounter, ExitEvent.setInactive, ExitEvent.cancelTimerSync,
       ExitEvent.flushQueue, ExitEvent.destroyQueue]
      ++ (if true = true then [ExitEvent.finalWrite] else [])
      ++ [ExitEvent.freeState, ExitEvent.clearRef] :=
  ⟨rfl, rfl, claim_C2 (activeState 7) true rfl rfl⟩

/-- Claim C3: whenever the filename is NULL, empty or longer than
PATH_MAX - 1 characters, or the period lies outside [1, 3600], init returns
-EINVAL with an empty event trace (so nothing was allocated) and retains no
module state. -/
theorem claim_C3 (e : InitEnv)
    (h : e.filename = none
       ∨ (∃ s, e.filename = some s ∧ (s.length = 0 ∨ PATH_MAX - 1 < s.length))
       ∨ e.timer_period < MIN_PERIOD ∨ MAX_PERIOD < e.timer_period) :
    test_module_init e = (-22, [], none) := by
  unfold test_module_init
  rcases h with hfn | ⟨s, hs, hlen⟩ | hp | hp
  · rw [hfn]
    simp [is_valid_path]
  · have : is_valid_path e.filename = false := by
      rw [(is_valid_path_eq_false_iff e.filename).mpr (Or.inr ⟨s, hs, hlen⟩)]
    rw [this]
    simp
  · cases hv : is_valid_path e.filename with
    | false => simp
    | true => rw [if_neg (by simp), if_pos (Or.inl hp)]
  · cases hv : is_valid_path e.filename with
    | false => simp
    | true => rw [if_neg (by simp), if_pos (Or.inr hp)]

/-- Witness for claim C3 at an out-of-range period with a valid filename. -/
theorem claim_C3_witness :
    ((InitEnv.mk (some "f") 0 true true).timer_period < MIN_PERIOD
     ∨ MAX_PERIOD < (InitEnv.mk (some "f") 0 true true).timer_period) ∧
    test_module_init (InitEnv.mk (some "f") 0 true true) = (-22, [], none) :=
  ⟨Or.inl (by decide), claim_C3 (InitEnv.mk (some "f") 0 true true)
    (Or.inr (Or.inr (Or.inl (by decide))))⟩

/-- Claim C4: on every path through the workqueue handler — valid item,
malformed item, failing write — the message buffer, the filepath buffer and
the item are each released exactly once. -/
theorem claim_C4 (w : write_work) (o : WriteOracle) :
    (write_work_handler w o).count WorkEvent.freeMessage = 1
    ∧ (write_work_handler w o).count WorkEvent.freeFilepath = 1
    ∧ (write_work_handler w o).count WorkEvent.freeItem = 1 := by
  rcases w with ⟨m, p⟩
  cases m <;> cases p <;>
    simp [write_work_handler, List.count_cons, List.count_nil]

/-- Claim C5: the file writer returns -EINVAL when the message is NULL or
the path fails validation (NULL, empty, or over PATH_MAX - 1 characters),
and a non-NULL empty message with a valid path is a success with an empty
effect trace (no open, no write). -/
theorem claim_C5 (m p : Option String) (o : WriteOracle) :
    ((m = none ∨ is_valid_path p = false) → (write_to_file m p o).1 = -22)
    ∧ (∀ s, m = some s → s.length = 0 → is_valid_path p = true →
        write_to_file m p o = (0, []))
    ∧ (is_valid_path p = false ↔
        (p = none ∨ ∃ q, p = some q ∧ (q.length = 0 ∨ PATH_MAX - 1 < q.length))) := by
  refine ⟨?_, ?_, is_valid_path_eq_false_iff p⟩
  · rintro (hm | hp)
    · rw [hm]; rfl
    · cases m with
      | none => rfl
      | some s =>
        cases p with
        | none => rfl
        | some q => simp [write_to_file, hp]
  · intro s hm hlen hv
    subst hm
    cases p with
    | none => simp [is_valid_path] at hv
    | some q => simp [write_to_file, hv, hlen]

/-- Witness for claim C5: NULL message, NULL path, and an empty message
with a valid path. -/
theorem claim_C5_witness :
    (write_to_file none (some "a") writeOracleOk).1 = -22
    ∧ (write_to_file (some "x") none writeOracleOk).1 = -22
    ∧ write_to_file (some "") (some "a") writeOracleOk = (0, []) :=
  ⟨(claim_C5 none (some "a") writeOracleOk).1 (Or.inl rfl),
   (claim_C5 (some "x") none writeOracleOk).1 (Or.inr rfl),
   (claim_C5 (some "") (some "a") writeOracleOk).2.1 "" rfl rfl (by decide)⟩

/-- Claim C9: when the kernel write reports a non-negative count smaller
than the requested length, the file writer returns -EIO (ShortWrite) with
exactly one write attempt, and the file is closed before returning. -/
theorem claim_C9 (s p : String) (o : WriteOracle) (w : Int)
    (h1 : s.length ≠ 0) (h2 : is_valid_path (some p) = true)
    (h3 : o.kstrdupOk = true) (h4 : o.openResult = none)
    (h5 : o.writeResult = w) (h6 : 0 ≤ w) (h7 : w < (s.length : Int)) :
    write_to_file (some s) (some p) o =
      (-5, [FsEvent.openAttempt p, FsEvent.writeCall s.length,
            FsEvent.closeFile, FsEvent.freePathBuf]) := by
  unfold write_to_file
  rw [h4]
  simp only [h2, h3, h5]
  rw [if_neg (by simp), if_neg h1, if_neg (by simp)]
  rw [if_neg (by omega), if_pos (by omega)]

/-- Witness for claim C9: a two-byte message of which one byte is written. -/
theorem claim_C9_witness :
    ("ab".length ≠ 0) ∧
    is_valid_path (some "f") = true ∧
    write_to_file (some "ab") (some "f") (WriteOracle.mk true none 1) =
      (-5, [FsEvent.openAttempt "f", FsEvent.writeCall "ab".length,
            FsEvent.closeFile, FsEvent.freePathBuf]) :=
  ⟨by decide, by decide,
   claim_C9 "ab" "f" (WriteOracle.mk true none 1) 1
     (by decide) (by decide) rfl rfl rfl (by decide) (by decide)⟩

/-- Claim C10: with a non-empty message and a valid path, a failed internal
path duplication makes the file writer return -ENOMEM with no file effect
at all, an outcome outside the listed FileWriter contract errors. -/
theorem claim_C10 (s p : String) (o : WriteOracle)
    (h1 : s.length ≠ 0) (h2 : is_valid_path (some p) = true)
    (h3 : o.kstrdupOk = false) :
    write_to_file (some s) (some p) o = (-12, [])
    ∧ (-12 : Int) ∉ specFileWriterListedErrors := by
  constructor
  · unfold write_to_file
    simp only [h2, h3]
    simp [h1]
  · decide

/-- Witness for claim C10: a concrete valid input with a failing kstrdup. -/
theorem claim_C10_witness :
    ("x".length ≠ 0) ∧
    is_valid_path (some "f") = true ∧
    (write_to_file (some "x") (some "f") (WriteOracle.mk false none 0) = (-12, [])
     ∧ (-12 : Int) ∉ specFileWriterListedErrors) :=
  ⟨by decide, by decide,
   claim_C10 "x" "f" (WriteOracle.mk false none 0) (by decide) (by decide) rfl⟩

/-- Claim C8: a fire whose state reference fails the singleton check or
whose active flag is false is a complete no-op: the state (counter
included) is unchanged and no event — allocation, submission or rearm — is
produced. -/
theorem claim_C8 (stateMatches : Bool) (st : test_module_state)
    (fn : Option String) (period : Nat) (o : TCOracle)
    (h : stateMatches = false ∨ st.module_active = false) :
    timer_callback stateMatches st fn period o = (st, []) := by
  unfold timer_callback
  rcases h with h | h
  · rw [if_pos h]
  · cases stateMatches with
    | false => rw [if_pos rfl]
    | true => rw [if_neg (by simp), if_pos h]

/-- Witness for claim C8: a fire after deactivation. -/
theorem claim_C8_witness :
    ((test_module_state.mk 3 false true true).module_active = false) ∧
    timer_callback true (test_module_state.mk 3 false true true)
        (some "f") 5 tcOracleAllOk = (test_module_state.mk 3 false true true, []) :=
  ⟨rfl, claim_C8 true (test_module_state.mk 3 false true true)
    (some "f") 5 tcOracleAllOk (Or.inr rfl)⟩

/-- Claim C7: a fire that passes the initial checks rearms the timer if and
only if the active flag is still true and the period is positive. -/
theorem claim_C7 (st : test_module_state) (fn : Option String) (period : Nat)
    (o : TCOracle) (hact : st.module_active = true) :
    (TCEvent.rearm ∈ (timer_callback true st fn period o).2 ↔
      (st.module_active = true ∧ 0 < period)) := by
  simp only [timer_callback]
  rw [if_neg (by simp), if_neg (by simp [hact])]
  simp only [hact, true_and]
  by_cases hp : 0 < period <;>
    simp only [hp] <;>
    (repeat' split) <;>
    simp_all

/-- Witness for claim C7 on a fresh active state with period 5. -/
theorem claim_C7_witness :
    (activeState 0).module_active = true ∧
    (TCEvent.rearm ∈ (timer_callback true (activeState 0) (some "f") 5 tcOracleAllOk).2 ↔
      ((activeState 0).module_active = true ∧ 0 < 5)) :=
  ⟨rfl, claim_C7 (activeState 0) (some "f") 5 tcOracleAllOk rfl⟩

/-- Claim C6: if any of the three allocations of a fire fails, that cycle
submits nothing to the queue, every piece allocated so far in the cycle is
released (allocations and frees balance per resource), and the rearm
decision still happens exactly as in a successful cycle. -/
theorem claim_C6 (st : test_module_state) (fn : Option String) (period : Nat)
    (o : TCOracle) (hact : st.module_active = true)
    (hfail : o.allocWOk = false ∨ o.allocMsgOk = false ∨ o.strdupOk = false) :
    TCEvent.submitWork ∉ (timer_callback true st fn period o).2
    ∧ (timer_callback true st fn period o).2.count TCEvent.allocW
        = (timer_callback true st fn period o).2.count TCEvent.freeW
    ∧ (timer_callback true st fn period o).2.count TCEvent.allocMsg
        = (timer_callback true st fn period o).2.count TCEvent.freeMsg
    ∧ (timer_callback true st fn period o).2.count TCEvent.allocPath
        = (timer_callback true st fn period o).2.count TCEvent.freePath
    ∧ (TCEvent.rearm ∈ (timer_callback true st fn period o).2 ↔ 0 < period) := by
  rcases o with ⟨s1, aW, aM, sd, s2⟩
  simp only [timer_callback]
  rw [if_neg (by simp), if_neg (by simp [hact])]
  simp only [hact, true_and]
  by_cases hp : 0 < period <;>
    simp only [hp] <;>
    cases s1 <;> cases aW <;> cases aM <;> cases sd <;> cases s2 <;>
    rcases fn with _ | f <;>
    simp_all [List.count_append, List.count_cons, List.count_nil]

/-- Witness for claim C6: the work-item allocation fails during one fire. -/
theorem claim_C6_witness :
    (activeState 0).module_active = true ∧
    tcOracleNoW.allocWOk = false ∧
    (TCEvent.submitWork ∉ (timer_callback true (activeState 0) (some "f") 5 tcOracleNoW).2
     ∧ (timer_callback true (activeState 0) (some "f") 5 tcOracleNoW).2.count TCEvent.allocW
         = (timer_callback true (activeState 0) (some "f") 5 tcOracleNoW).2.count TCEvent.freeW
     ∧ (timer_callback true (activeState 0) (some "f") 5 tcOracleNoW).2.count TCEvent.allocMsg
         = (timer_callback true (activeState 0) (some "f") 5 tcOracleNoW).2.count TCEvent.freeMsg
     ∧ (timer_callback true (activeState 0) (some "f") 5 tcOracleNoW).2.count TCEvent.allocPath
         = (timer_callback true (activeState 0) (some "f") 5 tcOracleNoW).2.count TCEvent.freePath
     ∧ (TCEvent.rearm ∈ (timer_callback true (activeState 0) (some "f") 5 tcOracleNoW).2 ↔
         0 < 5)) :=
  ⟨rfl, rfl, claim_C6 (activeState 0) (some "f") 5 tcOracleNoW rfl (Or.inl rfl)⟩
